import Mathlib

/-!
Verification of the dual-transport RPC command client in `nanopy/rpc.py`.

The embedding models the wire payload built by each client method as an
ordered association list (Python dicts preserve insertion order), the
constructor and transport dispatch of the `RPC` class, and the JSON
serialization both transports apply to a payload.
-/

namespace NanopyRpc

/-- Values that can appear in a wire payload built by the client methods of
`nanopy/rpc.py`: strings, Python ints, booleans, and lists of strings. -/
inductive Value where
  | str : String → Value
  | int : Int → Value
  | bool : Bool → Value
  | strList : List String → Value
deriving DecidableEq, Repr

/-- A wire payload models a Python `dict[str, Any]` as an ordered association
list: Python dicts preserve insertion order, and the first binding of a key is
the one `lookup` sees. -/
abbrev Payload := List (String × Value)

/-- Model of Python dict assignment `d[k] = v`: if the key is already present
its value is updated in place (keeping insertion order), otherwise the new
pair is appended at the end. -/
def dictInsert (d : Payload) (k : String) (v : Value) : Payload :=
  if d.any (fun p => p.1 == k) then
    d.map (fun p => bif p.1 == k then (k, v) else p)
  else
    d ++ [(k, v)]

/-- The two transport modes of the client, selected once in `RPC.__init__`
(rpc.py lines 29-38) from the connection string. -/
inductive Mode where
  | requests
  | websockets
deriving DecidableEq, Repr

/-- An observable connection-establishing effect performed during
construction. `requests.session()` only creates a pooled session object and
opens no connection, so the sole construction-time connection effect is
`websocket.create_connection(url, ...)` (the Bool records the tor flag). -/
inductive ConnectAttempt where
  | wsConnect : String → Bool → ConnectAttempt
deriving DecidableEq, Repr

/-- The raw body of a reply, after transport but before JSON decoding: either
well-formed JSON (already presented as the decoded field mapping) or text that
the JSON decoder rejects. -/
inductive ReplyBody where
  | wellFormed : List (String × Value) → ReplyBody
  | malformed : String → ReplyBody
deriving DecidableEq, Repr

/-- The error taxonomy of the spec, mapped onto the exceptions the code can
raise: `configurationError` is the construction-time `AttributeError` of
`RPC.__init__`; `transportError` is the `requests.HTTPError` raised by
`raise_for_status()`, carrying the status and the reply body; `decodeError`
is the JSON decoder rejecting a malformed body. -/
inductive RpcError where
  | configurationError : String → RpcError
  | transportError : Nat → ReplyBody → RpcError
  | decodeError : String → RpcError
deriving DecidableEq, Repr

/-- Model of `RPC.__init__` (rpc.py lines 23-51): inspect the connection
string, pick a mode or fail, and record the connection attempts made. The
invalid-scheme branch raises before any session or socket is touched, so its
attempt list is empty. -/
def RPC_init (url : String) (tor : Bool) :
    List ConnectAttempt × Except RpcError Mode :=
  if url.take 7 = "http://" ∨ url.take 8 = "https://" then
    ([], Except.ok Mode.requests)
  else if url.take 5 = "ws://" ∨ url.take 6 = "wss://" then
    ([ConnectAttempt.wsConnect url tor], Except.ok Mode.websockets)
  else
    ([], Except.error (RpcError.configurationError ("Invalid url: " ++ url)))

/-- Model of `http_response.json()` and `json.loads(...)`: a well-formed body
decodes to its field mapping, whatever fields (including an error field) it
holds; a malformed body raises a decode error. -/
def response_json : ReplyBody → Except RpcError (List (String × Value))
  | ReplyBody.wellFormed fields => Except.ok fields
  | ReplyBody.malformed raw => Except.error (RpcError.decodeError raw)

/-- An HTTP reply as seen by the requests branch of `RPC._post`: a status
code and a raw body. -/
structure HttpResponse where
  status : Nat
  body : ReplyBody
deriving DecidableEq, Repr

/-- Model of the requests branch of `RPC._post` (rpc.py lines 61-66):
`raise_for_status()` raises an `HTTPError` exactly when the status code is in
400-599, and otherwise the body is JSON-decoded and returned as is. -/
def http_post (resp : HttpResponse) : Except RpcError (List (String × Value)) :=
  if 400 ≤ resp.status ∧ resp.status < 600 then
    Except.error (RpcError.transportError resp.status resp.body)
  else
    response_json resp.body

/-- Model of the receive half of the websockets branch of `RPC._post`
(rpc.py lines 67-69): the received text is JSON-decoded and returned as is,
with no status check of any kind. -/
def ws_recv_decode (reply : ReplyBody) : Except RpcError (List (String × Value)) :=
  response_json reply

/-- Lowercase hexadecimal digit, as used by the `\uXXXX` escapes of
`json.dumps`. -/
def hexDigit (n : Nat) : Char :=
  if n < 10 then Char.ofNat (48 + n) else Char.ofNat (87 + n)

/-- Four lowercase hexadecimal digits. -/
def hex4 (n : Nat) : String :=
  String.mk [hexDigit (n / 4096 % 16), hexDigit (n / 256 % 16),
    hexDigit (n / 16 % 16), hexDigit (n % 16)]

/-- Escaping of one character as in CPython `json.dumps` with its default
`ensure_ascii=True`: quote and backslash are escaped, the short control
escapes are used, every other character outside the printable ASCII range
32-126 becomes `\uXXXX` (a surrogate pair above 65535). -/
def escapeChar (c : Char) : String :=
  if c = '\"' then "\\\""
  else if c = '\\' then "\\\\"
  else if c = '\n' then "\\n"
  else if c = '\t' then "\\t"
  else if c = '\r' then "\\r"
  else if c = Char.ofNat 8 then "\\b"
  else if c = Char.ofNat 12 then "\\f"
  else if c.toNat < 32 ∨ 126 < c.toNat then
    if c.toNat < 65536 then "\\u" ++ hex4 c.toNat
    else
      "\\u" ++ hex4 (55296 + (c.toNat - 65536) / 1024) ++
        "\\u" ++ hex4 (56320 + (c.toNat - 65536) % 1024)
  else String.singleton c

/-- A JSON string literal as produced by `json.dumps`. -/
def json_str (s : String) : String :=
  "\"" ++ String.join (s.data.map escapeChar) ++ "\""

/-- JSON text of one payload value, with the default `json.dumps`
item separator. -/
def json_value : Value → String
  | Value.str s => json_str s
  | Value.int n => toString n
  | Value.bool b => bif b then "true" else "false"
  | Value.strList l => "[" ++ String.intercalate ", " (l.map json_str) ++ "]"

/-- Model of `json.dumps(data)` on a payload with the default separators
`", "` and `": "` of CPython. Both transport branches of `RPC._post`
serialize the payload with exactly this function: the requests branch through
`json=data` (requests calls `json.dumps` with its defaults) and the
websockets branch through the explicit `json.dumps(data)` call. -/
def json_dumps (d : Payload) : String :=
  "\x7b" ++
    String.intercalate ", "
      (d.map (fun p => json_str p.1 ++ ": " ++ json_value p.2)) ++
    "\x7d"

/-- The serialized payload bytes put on the wire by the requests branch of
`RPC._post`: requests serializes the `json=data` argument with `json.dumps`
and utf-8 encodes the resulting text as the POST body. -/
def http_wire_bytes (d : Payload) : List UInt8 :=
  (json_dumps d).toUTF8.toList

/-- The serialized payload bytes put on the wire by the websockets branch of
`RPC._post`: `json.dumps(data)` is sent as the utf-8 payload of a text
frame. -/
def ws_wire_bytes (d : Payload) : List UInt8 :=
  (json_dumps d).toUTF8.toList

/-- The observable state of one constructed client: its mode, connection
string, headers, and whether a websocket is currently open. -/
structure ClientState where
  mode : Mode
  url : String
  headers : Option (List (String × String))
  socketOpen : Bool
deriving DecidableEq, Repr

/-- Model of `RPC.disconnect` (rpc.py lines 72-75): close the websocket in
websockets mode, do nothing at all in requests mode. -/
def disconnect (s : ClientState) : ClientState :=
  if s.mode = Mode.websockets then { s with socketOpen := false } else s

/-- Model of `RPC.account_balance` (rpc.py lines 79-86). -/
def account_balance (account : String) (include_only_confirmed : Bool) : Payload :=
  let data : Payload := []
  let data := dictInsert data "action" (Value.str "account_balance")
  let data := dictInsert data "account" (Value.str account)
  let data := if !include_only_confirmed then
      dictInsert data "include_only_confirmed" (Value.bool false)
    else data
  data

/-- Model of `RPC.account_history` (rpc.py lines 102-127). -/
def account_history (account : String) (count : Int) (raw : Bool) (head : String)
    (offset : Int) (reverse : Bool) (account_filter : Option (List String)) : Payload :=
  let data : Payload := []
  let data := dictInsert data "action" (Value.str "account_history")
  let data := dictInsert data "account" (Value.str account)
  let data := dictInsert data "count" (Value.int count)
  let data := if raw then dictInsert data "raw" (Value.bool true) else data
  let data := if head ≠ "" then dictInsert data "head" (Value.str head) else data
  let data := if offset ≠ 0 then dictInsert data "offset" (Value.int offset) else data
  let data := if reverse then dictInsert data "reverse" (Value.bool reverse) else data
  let data := match account_filter with
    | some l => if l ≠ [] then dictInsert data "account_filter" (Value.strList l) else data
    | none => data
  data

/-- Model of `RPC.block_create` (rpc.py lines 252-295). -/
def block_create (balance representative previous wallet account key source
    destination link work version : String) (json_block : Bool)
    (difficulty : String) : Payload :=
  let data : Payload := []
  let data := dictInsert data "action" (Value.str "block_create")
  let data := dictInsert data "type" (Value.str "state")
  let data := dictInsert data "balance" (Value.str balance)
  let data := if wallet ≠ "" then dictInsert data "wallet" (Value.str wallet) else data
  let data := if account ≠ "" then dictInsert data "account" (Value.str account) else data
  let data := if key ≠ "" then dictInsert data "key" (Value.str key) else data
  let data := if source ≠ "" then dictInsert data "source" (Value.str source) else data
  let data := if destination ≠ "" then
      dictInsert data "destination" (Value.str destination)
    else data
  let data := if link ≠ "" then dictInsert data "link" (Value.str link) else data
  let data := dictInsert data "representative" (Value.str representative)
  let data := dictInsert data "previous" (Value.str previous)
  let data := if work ≠ "" then dictInsert data "work" (Value.str work)
    else if difficulty ≠ "" then dictInsert data "difficulty" (Value.str difficulty)
    else data
  let data := if version ∈ (["work_1"] : List String) then
      dictInsert data "version" (Value.str version)
    else data
  let data := if json_block then dictInsert data "json_block" (Value.bool true) else data
  data

/-- Model of `RPC.republish` (rpc.py lines 703-716). Note that the shared
`count` field is written inside both the `sources` and the `destinations`
branch, with the same value. -/
def republish (_hash : String) (count sources destinations : Int) : Payload :=
  let data : Payload := []
  let data := dictInsert data "action" (Value.str "republish")
  let data := dictInsert data "hash" (Value.str _hash)
  let data := if sources ≠ 0 then
      dictInsert (dictInsert data "sources" (Value.int sources)) "count" (Value.int count)
    else data
  let data := if destinations ≠ 0 then
      dictInsert (dictInsert data "destinations" (Value.int destinations)) "count"
        (Value.int count)
    else data
  data

/-- Model of `RPC.send` (rpc.py lines 1054-1074). -/
def send (wallet source destination amount _id work : String) : Payload :=
  let data : Payload := []
  let data := dictInsert data "action" (Value.str "send")
  let data := dictInsert data "wallet" (Value.str wallet)
  let data := dictInsert data "source" (Value.str source)
  let data := dictInsert data "destination" (Value.str destination)
  let data := dictInsert data "amount" (Value.str amount)
  let data := if _id ≠ "" then dictInsert data "id" (Value.str _id) else data
  let data := if work ≠ "" then dictInsert data "work" (Value.str work) else data
  data

/-- Model of `RPC.work_generate` (rpc.py lines 862-891). -/
def work_generate (_hash : String) (use_peers : Bool) (difficulty : String)
    (multiplier : Int) (account version block : String) (json_block : Bool) : Payload :=
  let data : Payload := []
  let data := dictInsert data "action" (Value.str "work_generate")
  let data := dictInsert data "hash" (Value.str _hash)
  let data := if use_peers then dictInsert data "use_peers" (Value.bool true) else data
  let data := if multiplier ≠ 0 then dictInsert data "multiplier" (Value.int multiplier)
    else if difficulty ≠ "" then dictInsert data "difficulty" (Value.str difficulty)
    else data
  let data := if account ≠ "" then dictInsert data "account" (Value.str account) else data
  let data := if version ∈ (["work_1"] : List String) then
      dictInsert data "version" (Value.str version)
    else data
  let data := if block ≠ "" then
      let data := dictInsert data "block" (Value.str block)
      if json_block then dictInsert data "json_block" (Value.bool json_block) else data
    else data
  data

/-- Model of `RPC.work_validate` (rpc.py lines 913-932). -/
def work_validate (work _hash difficulty : String) (multiplier : Int)
    (version : String) : Payload :=
  let data : Payload := []
  let data := dictInsert data "action" (Value.str "work_validate")
  let data := dictInsert data "work" (Value.str work)
  let data := dictInsert data "hash" (Value.str _hash)
  let data := if multiplier ≠ 0 then dictInsert data "multiplier" (Value.int multiplier)
    else if difficulty ≠ "" then dictInsert data "difficulty" (Value.str difficulty)
    else data
  let data := if version ∈ (["work_1"] : List String) then
      dictInsert data "version" (Value.str version)
    else data
  data

/-! Helper lemmas about `List.lookup` over `dictInsert`. -/

theorem lookup_nil (k : String) : List.lookup k ([] : Payload) = none := rfl

theorem lookup_cons (k : String) (p : String × Value) (ds : Payload) :
    List.lookup k (p :: ds) = bif k == p.1 then some p.2 else List.lookup k ds := rfl

theorem lookup_map_update_ne (d : Payload) (k : String) (v : Value) (k' : String)
    (h : (k' == k) = false) :
    (d.map (fun p => bif p.1 == k then (k, v) else p)).lookup k' = d.lookup k' := by
  induction d with
  | nil => rfl
  | cons p ds ih =>
    cases hp : (p.1 == k) with
    | true =>
      have hne : (k' == p.1) = false := by rw [eq_of_beq hp]; exact h
      simp only [List.map_cons, hp, cond_true, lookup_cons, h, cond_false, hne, ih]
    | false =>
      simp only [List.map_cons, hp, cond_false, lookup_cons]
      cases hkp : (k' == p.1) <;> simp [ih]

theorem lookup_map_update_self (d : Payload) (k : String) (v : Value)
    (h : d.any (fun p => p.1 == k) = true) :
    (d.map (fun p => bif p.1 == k then (k, v) else p)).lookup k = some v := by
  induction d with
  | nil => simp at h
  | cons p ds ih =>
    cases hp : (p.1 == k) with
    | true => simp [List.map_cons, hp, lookup_cons]
    | false =>
      have h' : ds.any (fun p => p.1 == k) = true := by
        rw [List.any_cons, hp, Bool.false_or] at h; exact h
      have hk : (k == p.1) = false := by
        cases hkk : (k == p.1)
        · rfl
        · exact absurd hp (by rw [eq_of_beq hkk]; simp)
      simp only [List.map_cons, hp, cond_false, lookup_cons, hk, ih h']

theorem lookup_append_ne (d : Payload) (k : String) (v : Value) (k' : String)
    (h : (k' == k) = false) :
    (d ++ [(k, v)]).lookup k' = d.lookup k' := by
  induction d with
  | nil => simp [lookup_cons, h]
  | cons p ds ih =>
    simp only [List.cons_append, lookup_cons]
    cases hkp : (k' == p.1) <;> simp [ih]

theorem lookup_append_self (d : Payload) (k : String) (v : Value)
    (h : d.any (fun p => p.1 == k) = false) :
    (d ++ [(k, v)]).lookup k = some v := by
  induction d with
  | nil => simp [lookup_cons]
  | cons p ds ih =>
    cases hp : (p.1 == k) with
    | true => rw [List.any_cons, hp] at h; simp at h
    | false =>
      rw [List.any_cons, hp, Bool.false_or] at h
      have hk : (k == p.1) = false := by
        cases hkk : (k == p.1)
        · rfl
        · exact absurd hp (by rw [eq_of_beq hkk]; simp)
      simp only [List.cons_append, lookup_cons, hk, cond_false, ih h]

theorem lookup_dictInsert_self (d : Payload) (k : String) (v : Value) :
    (dictInsert d k v).lookup k = some v := by
  unfold dictInsert
  split
  · exact lookup_map_update_self d k v (by assumption)
  · rename_i h
    exact lookup_append_self d k v (Bool.eq_false_iff.mpr h)

theorem lookup_dictInsert_ne (d : Payload) (k : String) (v : Value) (k' : String)
    (h : (k' == k) = false) : (dictInsert d k v).lookup k' = d.lookup k' := by
  unfold dictInsert
  split
  · exact lookup_map_update_ne d k v k' h
  · exact lookup_append_ne d k v k' h

theorem lookup_ite (c : Prop) [Decidable c] (a b : Payload) (k : String) :
    List.lookup k (if c then a else b) =
      if c then List.lookup k a else List.lookup k b :=
  apply_ite (List.lookup k) c a b

/-- C1: in `RPC._post`, a reply whose HTTP status is non-success (the 400-599
range checked by `raise_for_status`) raises a transport error carrying the
status and body, while a well-formed reply whose body contains an error field
is returned to the caller as an ordinary decoded mapping with that field
populated and no exception; the soft-error behaviour holds on both the
requests and the websockets transport. -/
theorem post_error_asymmetry :
    (∀ (status : Nat) (body : ReplyBody), 400 ≤ status → status < 600 →
      http_post ⟨status, body⟩ =
        Except.error (RpcError.transportError status body)) ∧
    (∀ (status : Nat) (fields : List (String × Value)) (v : Value),
      ¬(400 ≤ status ∧ status < 600) → fields.lookup "error" = some v →
      http_post ⟨status, ReplyBody.wellFormed fields⟩ = Except.ok fields) ∧
    (∀ (fields : List (String × Value)) (v : Value),
      fields.lookup "error" = some v →
      ws_recv_decode (ReplyBody.wellFormed fields) = Except.ok fields) := by
  refine ⟨fun status body h1 h2 => ?_, fun status fields v hns hf => ?_,
    fun fields v hf => rfl⟩
  · simp [http_post, h1, h2]
  · simp [http_post, hns, response_json]

/-- Concrete instance of the error asymmetry: status 500 raises a transport
error carrying status and body; a status-200 reply and a websocket reply whose
body holds an error field are both returned as ordinary mappings. -/
theorem post_error_asymmetry_witness :
    http_post ⟨500, ReplyBody.wellFormed [("error", Value.str "Bad block")]⟩ =
      Except.error (RpcError.transportError 500
        (ReplyBody.wellFormed [("error", Value.str "Bad block")])) ∧
    http_post ⟨200, ReplyBody.wellFormed [("error", Value.str "Bad block")]⟩ =
      Except.ok [("error", Value.str "Bad block")] ∧
    ws_recv_decode (ReplyBody.wellFormed [("error", Value.str "Bad block")]) =
      Except.ok [("error", Value.str "Bad block")] :=
  ⟨post_error_asymmetry.1 500 _ (by decide) (by decide),
   post_error_asymmetry.2.1 200 _ (Value.str "Bad block") (by decide) (by rfl),
   post_error_asymmetry.2.2 _ (Value.str "Bad block") (by rfl)⟩

/-- C2: constructing the client with a connection string whose scheme is none
of http, https, ws, wss yields the configuration error naming the invalid
string, at construction time, with no connection attempt made. -/
theorem init_invalid_scheme (url : String) (tor : Bool)
    (h1 : url.take 7 ≠ "http://") (h2 : url.take 8 ≠ "https://")
    (h3 : url.take 5 ≠ "ws://") (h4 : url.take 6 ≠ "wss://") :
    RPC_init url tor =
      ([], Except.error (RpcError.configurationError ("Invalid url: " ++ url))) := by
  simp [RPC_init, h1, h2, h3, h4]

/-- Concrete instance: the connection string ftp://node.example is rejected
with the configuration error naming it, and the attempt list is empty. -/
theorem init_invalid_scheme_witness :
    RPC_init "ftp://node.example" false =
      ([], Except.error
        (RpcError.configurationError "Invalid url: ftp://node.example")) :=
  init_invalid_scheme "ftp://node.example" false
    (by decide) (by decide) (by decide) (by decide)

/-- C3: when both a non-empty difficulty and a non-zero multiplier are
supplied to `work_generate` or `work_validate`, the built payload contains
the multiplier field with the supplied value and omits the difficulty field:
the first populated member of the mutual-exclusion group wins. -/
theorem work_multiplier_precedence (difficulty : String) (multiplier : Int)
    (_hd : difficulty ≠ "") (hm : multiplier ≠ 0) :
    (∀ _hash use_peers account version block json_block,
      (work_generate _hash use_peers difficulty multiplier account version block
          json_block).lookup "multiplier" = some (Value.int multiplier) ∧
      (work_generate _hash use_peers difficulty multiplier account version block
          json_block).lookup "difficulty" = none) ∧
    (∀ work _hash version,
      (work_validate work _hash difficulty multiplier
          version).lookup "multiplier" = some (Value.int multiplier) ∧
      (work_validate work _hash difficulty multiplier
          version).lookup "difficulty" = none) := by
  constructor
  · intro _hash use_peers account version block json_block
    constructor <;>
      simp [work_generate, hm, lookup_ite, lookup_dictInsert_self,
        lookup_dictInsert_ne, lookup_nil]
  · intro work _hash version
    constructor <;>
      simp [work_validate, hm, lookup_ite, lookup_dictInsert_self,
        lookup_dictInsert_ne, lookup_nil]

/-- Concrete instance: `work_generate(hash="ABCD", difficulty="ffff",
multiplier=4)` emits multiplier 4 and no difficulty field, and likewise for
`work_validate`. -/
theorem work_multiplier_precedence_witness :
    (work_generate "ABCD" false "ffff" 4 "" "work_1" "" false).lookup "multiplier" =
      some (Value.int 4) ∧
    (work_generate "ABCD" false "ffff" 4 "" "work_1" "" false).lookup "difficulty" =
      none ∧
    (work_validate "W" "ABCD" "ffff" 4 "work_1").lookup "multiplier" =
      some (Value.int 4) ∧
    (work_validate "W" "ABCD" "ffff" 4 "work_1").lookup "difficulty" = none := by
  obtain ⟨h1, h2⟩ := (work_multiplier_precedence "ffff" 4 (by decide) (by decide)).1
    "ABCD" false "" "work_1" "" false
  obtain ⟨h3, h4⟩ := (work_multiplier_precedence "ffff" 4 (by decide) (by decide)).2
    "W" "ABCD" "work_1"
  exact ⟨h1, h2, h3, h4⟩

/-- C4: the inverse-polarity boolean of `account_balance`: its default true
yields exactly the two-field payload of action and account, and false yields
that payload plus include_only_confirmed set to false. -/
theorem account_balance_inverse_flag (account : String) :
    account_balance account true =
      [("action", Value.str "account_balance"), ("account", Value.str account)] ∧
    account_balance account false =
      [("action", Value.str "account_balance"), ("account", Value.str account),
        ("include_only_confirmed", Value.bool false)] :=
  ⟨rfl, rfl⟩

/-- C5: `republish` with a non-zero sources value co-emits the sources field
with the supplied value and the shared count field with its supplied or
default value. -/
theorem republish_co_emits_count (_hash : String) (count sources destinations : Int)
    (hs : sources ≠ 0) :
    (republish _hash count sources destinations).lookup "sources" =
      some (Value.int sources) ∧
    (republish _hash count sources destinations).lookup "count" =
      some (Value.int count) := by
  constructor <;>
    simp [republish, hs, lookup_ite, lookup_dictInsert_self,
      lookup_dictInsert_ne, lookup_nil]

/-- Concrete instance: `republish(hash="XYZ", sources=2)` with the default
count of 1 emits both sources 2 and count 1. -/
theorem republish_co_emits_count_witness :
    (republish "XYZ" 1 2 0).lookup "sources" = some (Value.int 2) ∧
    (republish "XYZ" 1 2 0).lookup "count" = some (Value.int 1) :=
  republish_co_emits_count "XYZ" 1 2 0 (by decide)

/-- C6: payload construction is a pure, deterministic function of the command
and the arguments: building twice from identical arguments yields identical
payloads, for every embedded command builder. -/
theorem builders_deterministic :
    (∀ account ioc, account_balance account ioc = account_balance account ioc) ∧
    (∀ account count raw head offset reverse af,
      account_history account count raw head offset reverse af =
        account_history account count raw head offset reverse af) ∧
    (∀ b r p w a k s d l wk v jb df,
      block_create b r p w a k s d l wk v jb df =
        block_create b r p w a k s d l wk v jb df) ∧
    (∀ h c s d, republish h c s d = republish h c s d) ∧
    (∀ w s d a i wk, send w s d a i wk = send w s d a i wk) ∧
    (∀ h up df m a v bl jb,
      work_generate h up df m a v bl jb = work_generate h up df m a v bl jb) ∧
    (∀ w h df m v, work_validate w h df m v = work_validate w h df m v) :=
  ⟨fun _ _ => rfl, fun _ _ _ _ _ _ _ => rfl, fun _ _ _ _ _ _ _ _ _ _ _ _ _ => rfl,
    fun _ _ _ _ => rfl, fun _ _ _ _ _ _ => rfl, fun _ _ _ _ _ _ _ _ => rfl,
    fun _ _ _ _ _ => rfl⟩

/-- C7: every embedded command builder produces a single flat mapping whose
action field is bound to the command name and whose required fields are bound
to the caller-supplied values, unconditionally. -/
theorem payload_action_and_required_fields :
    (∀ account ioc,
      (account_balance account ioc).lookup "action" =
        some (Value.str "account_balance") ∧
      (account_balance account ioc).lookup "account" = some (Value.str account)) ∧
    (∀ account count raw head offset reverse af,
      (account_history account count raw head offset reverse af).lookup "action" =
        some (Value.str "account_history") ∧
      (account_history account count raw head offset reverse af).lookup "account" =
        some (Value.str account)) ∧
    (∀ b r p w a k s d l wk v jb df,
      (block_create b r p w a k s d l wk v jb df).lookup "action" =
        some (Value.str "block_create") ∧
      (block_create b r p w a k s d l wk v jb df).lookup "balance" =
        some (Value.str b) ∧
      (block_create b r p w a k s d l wk v jb df).lookup "representative" =
        some (Value.str r) ∧
      (block_create b r p w a k s d l wk v jb df).lookup "previous" =
        some (Value.str p)) ∧
    (∀ h c s d,
      (republish h c s d).lookup "action" = some (Value.str "republish") ∧
      (republish h c s d).lookup "hash" = some (Value.str h)) ∧
    (∀ w s d a i wk,
      (send w s d a i wk).lookup "action" = some (Value.str "send") ∧
      (send w s d a i wk).lookup "wallet" = some (Value.str w) ∧
      (send w s d a i wk).lookup "source" = some (Value.str s) ∧
      (send w s d a i wk).lookup "destination" = some (Value.str d) ∧
      (send w s d a i wk).lookup "amount" = some (Value.str a)) ∧
    (∀ h up df m a v bl jb,
      (work_generate h up df m a v bl jb).lookup "action" =
        some (Value.str "work_generate") ∧
      (work_generate h up df m a v bl jb).lookup "hash" = some (Value.str h)) ∧
    (∀ w h df m v,
      (work_validate w h df m v).lookup "action" =
        some (Value.str "work_validate") ∧
      (work_validate w h df m v).lookup "work" = some (Value.str w) ∧
      (work_validate w h df m v).lookup "hash" = some (Value.str h)) := by
  refine ⟨fun account ioc => ?_, fun account count raw head offset reverse af => ?_,
    fun b r p w a k s d l wk v jb df => ?_, fun h c s d => ?_,
    fun w s d a i wk => ?_, fun h up df m a v bl jb => ?_, fun w h df m v => ?_⟩
  · constructor <;>
      simp [account_balance, lookup_ite, lookup_dictInsert_self,
        lookup_dictInsert_ne, lookup_nil]
  · cases af <;> constructor <;>
      simp [account_history, lookup_ite, lookup_dictInsert_self,
        lookup_dictInsert_ne, lookup_nil]
  · refine ⟨?_, ?_, ?_, ?_⟩ <;>
      simp [block_create, lookup_ite, lookup_dictInsert_self,
        lookup_dictInsert_ne, lookup_nil]
  · constructor <;>
      simp [republish, lookup_ite, lookup_dictInsert_self,
        lookup_dictInsert_ne, lookup_nil]
  · refine ⟨?_, ?_, ?_, ?_, ?_⟩ <;>
      simp [send, lookup_ite, lookup_dictInsert_self,
        lookup_dictInsert_ne, lookup_nil]
  · constructor <;>
      simp [work_generate, lookup_ite, lookup_dictInsert_self,
        lookup_dictInsert_ne, lookup_nil]
  · refine ⟨?_, ?_, ?_⟩ <;>
      simp [work_validate, lookup_ite, lookup_dictInsert_self,
        lookup_dictInsert_ne, lookup_nil]

/-- C8: for every fixed payload, the serialized bytes delivered on the wire
by the requests transport and by the websockets transport are identical: both
branches of `RPC._post` apply the same JSON serialization and utf-8
encoding. -/
theorem transport_wire_bytes_equal (d : Payload) :
    http_wire_bytes d = ws_wire_bytes d := rfl

/-- C9: `disconnect` on a requests-mode client is a no-op leaving mode, url,
headers and session state unchanged, and `disconnect` is idempotent in every
mode: any number of calls after the first changes nothing further. -/
theorem disconnect_noop_idempotent :
    (∀ s : ClientState, s.mode = Mode.requests → disconnect s = s) ∧
    (∀ s : ClientState, disconnect (disconnect s) = disconnect s) := by
  constructor
  · intro s h
    simp [disconnect, h]
  · intro s
    by_cases h : s.mode = Mode.websockets <;> simp [disconnect, h]

/-- Concrete instance: disconnect leaves a requests-mode client untouched and
a double disconnect of a websockets-mode client equals a single one. -/
theorem disconnect_noop_idempotent_witness :
    disconnect ⟨Mode.requests, "http://localhost:7076", none, false⟩ =
      ⟨Mode.requests, "http://localhost:7076", none, false⟩ ∧
    disconnect (disconnect ⟨Mode.websockets, "ws://localhost:7078", none, true⟩) =
      disconnect ⟨Mode.websockets, "ws://localhost:7078", none, true⟩ :=
  ⟨disconnect_noop_idempotent.1 _ rfl, disconnect_noop_idempotent.2 _⟩

/-- C10: in `block_create`, `work_generate` and `work_validate` the version
field is emitted exactly when the supplied version string equals work_1, and
any other version value is silently omitted. -/
theorem version_emitted_iff_work1 :
    (∀ b r p w a k s d l wk version jb df,
      (block_create b r p w a k s d l wk version jb df).lookup "version" =
        if version = "work_1" then some (Value.str version) else none) ∧
    (∀ h up df m a version bl jb,
      (work_generate h up df m a version bl jb).lookup "version" =
        if version = "work_1" then some (Value.str version) else none) ∧
    (∀ w h df m version,
      (work_validate w h df m version).lookup "version" =
        if version = "work_1" then some (Value.str version) else none) := by
  refine ⟨fun b r p w a k s d l wk version jb df => ?_,
    fun h up df m a version bl jb => ?_, fun w h df m version => ?_⟩
  · by_cases hv : version = "work_1" <;>
      simp [block_create, hv, lookup_ite, lookup_dictInsert_self,
        lookup_dictInsert_ne, lookup_nil]
  · by_cases hv : version = "work_1" <;>
      simp [work_generate, hv, lookup_ite, lookup_dictInsert_self,
        lookup_dictInsert_ne, lookup_nil]
  · by_cases hv : version = "work_1" <;>
      simp [work_validate, hv, lookup_ite, lookup_dictInsert_self,
        lookup_dictInsert_ne, lookup_nil]

end NanopyRpc
